import Mathlib

/-!
Shallow embedding of the streaming/connection engine of
`src/Blender/vision_pro_streamer_zeroconf.py` (Vision Pro Blender Live
Streamer add-on), together with theorems settling the frozen claims about
its specification.

Modelling conventions:
  * wall-clock instants and sleep durations are rationals (`ℚ`);
  * payload bytes are naturals (`List ℕ`, each byte below 256 where it
    matters);
  * the mutable module globals (`last_model_change_time`,
    `is_exporting_usdz`, `pending_changes_during_export`, the per-loop
    `temp_dir` variable) are gathered into an explicit `StreamerState`
    record threaded through the functions;
  * one iteration of the `while not stop_event.is_set()` loop of
    `stream_scene_data` is the function `streamIteration`; the outside
    world (whether the export lock is free, whether the main-thread USDZ
    export produced data, whether a depsgraph change fired during the
    export, whether `sock.sendall` succeeded) is an `IterEnv` argument;
  * observable effects of an iteration (status reports, sleeps, directory
    creation, socket sends, the disconnect request) are recorded in an
    action trace so that theorems can speak about "no bytes written",
    "exactly one disconnect request", and so on.
-/

namespace VisionProStreamer

/-- A byte of payload data (kept below 256 where the framing needs it). -/
abbrev Byte := ℕ

/-- The module-level mutable state used by the streaming engine:
`last_model_change_time`, `is_exporting_usdz`,
`pending_changes_during_export` (lines 86-91 of the source), plus the
`temp_dir` loop variable of `stream_scene_data` (line 425) and ghost
bookkeeping (`createdDirs`, `nextDirId`) recording every directory
`tempfile.mkdtemp` ever created (line 458), so that cleanup claims can be
stated. -/
structure StreamerState where
  lastModelChangeTime : ℚ
  isExportingUsdz : Bool
  pendingChangesDuringExport : Bool
  tempDir : Option ℕ
  createdDirs : List ℕ
  nextDirId : ℕ
  deriving DecidableEq, Repr

/-- Embedding of `depsgraph_handler_update_time(scene)` (source lines
93-107): the depsgraph-update handler — the spec's `recordChange()`.  If
`is_exporting_usdz` is false it sets `last_model_change_time = time.time()`;
otherwise it sets `pending_changes_during_export = True`. -/
def depsgraph_handler_update_time (now : ℚ) (s : StreamerState) : StreamerState :=
  if !s.isExportingUsdz then
    { s with lastModelChangeTime := now }
  else
    { s with pendingChangesDuringExport := true }

/-- Embedding of `data_length.to_bytes(4, 'big')` (source line 521): the
4-byte unsigned big-endian encoding of a length. -/
def toBytesBE4 (n : ℕ) : List Byte :=
  [n / 2 ^ 24 % 256, n / 2 ^ 16 % 256, n / 2 ^ 8 % 256, n % 256]

/-- Big-endian decoding of four bytes, as a peer reading the wire header
would compute it. -/
def fromBytesBE4 (b0 b1 b2 b3 : ℕ) : ℕ :=
  ((b0 * 256 + b1) * 256 + b2) * 256 + b3

/-- Embedding of `header + usdz_data` (source lines 519-525): one wire
message, the 4-byte big-endian length header followed by the payload. -/
def frameMessage (payload : List Byte) : List Byte :=
  toBytesBE4 payload.length ++ payload

/-- A peer-side reader of the wire format: consume the 4-byte big-endian
length header, then exactly that many payload bytes; return the payload
and the remaining stream, or `none` if the stream is too short. -/
def readFrame (s : List Byte) : Option (List Byte × List Byte) :=
  match s with
  | b0 :: b1 :: b2 :: b3 :: rest =>
      let L := fromBytesBE4 b0 b1 b2 b3
      if L ≤ rest.length then some (rest.take L, rest.drop L) else none
  | _ => none

/-- Per-iteration configuration snapshot read by the loop body:
`stream_only_when_active` and `inactivity_threshold` from the add-on
properties (source lines 432, 437) and the frame rate
`bpy.context.scene.render.fps` (source lines 516, 529). -/
structure StreamConfig where
  streamOnlyWhenActive : Bool
  inactivityThreshold : ℚ
  fps : ℕ
  deriving DecidableEq, Repr

/-- The environment one loop iteration interacts with: whether
`export_lock.acquire(blocking=False)` succeeds (line 452), the outcome of
the main-thread USDZ export (`none` models failure, timeout, or no data —
line 513), whether a depsgraph update fired while the export was in
flight, and whether `sock.sendall` succeeded (line 525). -/
structure IterEnv where
  lockFree : Bool
  exportOutcome : Option (List Byte)
  changeDuringExport : Bool
  sendOk : Bool
  deriving DecidableEq, Repr

/-- Observable effects of a loop iteration, in program order. -/
inductive StreamAction where
  | statusIdle
  | sleep (seconds : ℚ)
  | createTempDir (dir : ℕ)
  | exportScene
  | statusExportFailed
  | send (bytes : List Byte)
  | statusSent
  | sendError
  | requestDisconnect
  deriving DecidableEq, Repr

/-- Whether the loop keeps iterating after this iteration, or exits
because an exception escaped the `while` into the outer handlers. -/
inductive LoopControl where
  | next
  | fatal
  deriving DecidableEq, Repr

/-- Result of one iteration of the streaming loop: the action trace, the
updated state, and whether the loop continues. -/
structure IterResult where
  actions : List StreamAction
  state : StreamerState
  control : LoopControl
  deriving DecidableEq, Repr

/-- Embedding of the `finally` clause at source lines 537-545: release
`export_lock`, then, holding `pending_changes_lock`, clear
`pending_changes_during_export` if it was set and `continue`.  On the
non-exception paths the loop was about to continue anyway, so only the
flag reset is observable here. -/
def finallyClause (acts : List StreamAction) (st : StreamerState) : IterResult :=
  if st.pendingChangesDuringExport then
    ⟨acts, { st with pendingChangesDuringExport := false }, .next⟩
  else
    ⟨acts, st, .next⟩

/-- Embedding of the body of one loop iteration after the activity gate
(source lines 451-545): try-acquire the export lock (skip the cycle if
held), create a fresh temporary directory, run the USDZ export on the
main thread with `is_exporting_usdz` set (so a depsgraph update arriving
mid-export goes through `depsgraph_handler_update_time` with the flag
true), then either report export failure and sleep `1/fps`, or frame and
send the payload.  On a send error the exception propagates into the
`finally` clause, where the `continue` statement at line 545 discards the
in-flight exception whenever `pending_changes_during_export` is set; only
when the flag is clear does the exception reach the outer handlers
(source lines 547-558), which request one asynchronous disconnect and
stop the loop. -/
def streamIterationBody (cfg : StreamConfig) (now : ℚ) (st : StreamerState)
    (env : IterEnv) : IterResult :=
  if !env.lockFree then
    ⟨[], st, .next⟩
  else
    let d := st.nextDirId
    let stDir : StreamerState :=
      { st with tempDir := some d, createdDirs := st.createdDirs ++ [d],
                nextDirId := d + 1 }
    let stExp0 : StreamerState := { stDir with isExportingUsdz := true }
    let stExp1 : StreamerState :=
      if env.changeDuringExport then depsgraph_handler_update_time now stExp0
      else stExp0
    let stExp : StreamerState := { stExp1 with isExportingUsdz := false }
    match env.exportOutcome with
    | none =>
        finallyClause
          [.createTempDir d, .exportScene, .statusExportFailed,
           .sleep (1 / (cfg.fps : ℚ))] stExp
    | some payload =>
        if env.sendOk then
          finallyClause
            [.createTempDir d, .exportScene, .send (frameMessage payload),
             .statusSent, .sleep (1 / (cfg.fps : ℚ))] stExp
        else
          if stExp.pendingChangesDuringExport then
            ⟨[.createTempDir d, .exportScene, .sendError],
             { stExp with pendingChangesDuringExport := false }, .next⟩
          else
            ⟨[.createTempDir d, .exportScene, .sendError, .requestDisconnect],
             stExp, .fatal⟩

/-- Embedding of one full iteration of the `while` loop of
`stream_scene_data` (source lines 427-545).  The activity gate (lines
430-448) runs first: when `stream_only_when_active` is set and
`now - last_model_change_time` has reached `inactivity_threshold`, the
iteration only reports an idle status, sleeps 0.5 seconds, and
`continue`s; otherwise the body runs. -/
def streamIteration (cfg : StreamConfig) (now : ℚ) (st : StreamerState)
    (env : IterEnv) : IterResult :=
  if cfg.streamOnlyWhenActive then
    if now - st.lastModelChangeTime < cfg.inactivityThreshold then
      streamIterationBody cfg now st env
    else
      ⟨[.statusIdle, .sleep (1 / 2)], st, .next⟩
  else
    streamIterationBody cfg now st env

/-- Running the streaming loop over a finite schedule of iteration
instants and environments: iterations run in order until the schedule is
exhausted (cancellation via `stop_event`) or an iteration exits the loop
fatally, in which case no further iteration runs. -/
def runStream (cfg : StreamConfig) :
    List (ℚ × IterEnv) → StreamerState → List StreamAction × StreamerState
  | [], st => ([], st)
  | (t, env) :: rest, st =>
      let r := streamIteration cfg t st env
      match r.control with
      | .fatal => (r.actions, r.state)
      | .next =>
          let p := runStream cfg rest r.state
          (r.actions ++ p.1, p.2)

/-- Embedding of the cleanup `finally` at source lines 559-565, run once
when `stream_scene_data` exits: `shutil.rmtree(temp_dir)` removes the
directory currently referenced by the `temp_dir` variable (the one the
most recent body iteration created), and nothing else.  Returns the list
of directories removed. -/
def loopExitCleanup (st : StreamerState) : List ℕ :=
  match st.tempDir with
  | some d => [d]
  | none => []

/-- Embedding of the activity-reset step of `VSP_OT_StartStreaming.execute`
(source lines 602-605): when `stream_only_when_active` is set, set
`last_model_change_time = time.time()` before spawning the streaming
thread. -/
def startStreamingResetLast (cfg : StreamConfig) (now : ℚ)
    (st : StreamerState) : StreamerState :=
  if cfg.streamOnlyWhenActive then { st with lastModelChangeTime := now }
  else st

/-- State relevant to `VSP_OT_ConnectToVisionPro`: the selected device
name, the names present in the `vision_pro_devices` registry, and the
`current_connection` slot (a socket is modelled as a numeric handle). -/
structure ConnectState where
  selectedDeviceName : String
  devices : List String
  connection : Option ℕ
  deriving DecidableEq, Repr

/-- Outcome of invoking the connect operator. -/
inductive ConnectOutcome where
  | finished (sock : ℕ)
  | cancelled
  | alreadyConnectedError
  | pollRejected
  deriving DecidableEq, Repr

/-- Embedding of `VSP_OT_ConnectToVisionPro.poll` (source lines 322-327):
the operator is enabled only if a device name is selected, that name is in
`vision_pro_devices`, and `current_connection is None`. -/
def connectPoll (st : ConnectState) : Bool :=
  !(st.selectedDeviceName == "") && st.devices.contains st.selectedDeviceName
    && st.connection == none

/-- Embedding of `VSP_OT_ConnectToVisionPro.execute` (source lines
329-367): re-check the selected device is still registered (cancel
otherwise), then attempt the socket connection; on success store the new
socket in `current_connection`, on socket error clear the slot and
cancel.  The socket-level outcome is the `socketOk` argument. -/
def connectExecute (st : ConnectState) (socketOk : Bool) (newSock : ℕ) :
    ConnectOutcome × ConnectState :=
  if !(st.devices.contains st.selectedDeviceName) then
    (.cancelled, st)
  else if socketOk then
    (.finished newSock, { st with connection := some newSock })
  else
    (.cancelled, { st with connection := none })

/-- Invoking the connect operator through the operator system: Blender
refuses the invocation when `poll` returns false, so `execute` never runs
then.  A refusal while `current_connection` is occupied is the spec's
`AlreadyConnectedError`; a refusal for the remaining reason (no valid
device selected) is tagged separately.  When the connection slot is
occupied, `poll` is false no matter what else holds, so the first branch
is faithful to the conjunction at source line 327. -/
def invokeConnect (st : ConnectState) (socketOk : Bool) (newSock : ℕ) :
    ConnectOutcome × ConnectState :=
  if st.connection ≠ none then
    (.alreadyConnectedError, st)
  else if !(connectPoll st) then
    (.pollRejected, st)
  else
    connectExecute st socketOk newSock

/-- A fresh initial streaming state: the module globals at load time
(`last_model_change_time = 0.0`, flags false, no temporary directory). -/
def initState : StreamerState :=
  ⟨0, false, false, none, [], 0⟩

/-- Reference configuration used by concrete evaluations: activity gating
off, threshold 2 s, 30 fps (the property defaults of the source). -/
def cfgRef : StreamConfig := ⟨false, 2, 30⟩

/-- Configuration with activity gating enabled, threshold 2 s, 30 fps. -/
def cfgActive : StreamConfig := ⟨true, 2, 30⟩

/-- Environment of a fully successful cycle with no mid-export change. -/
def envOk : IterEnv := ⟨true, some [1, 2, 3], false, true⟩

/-- Environment of a successful cycle during whose export a depsgraph
change fires. -/
def envPendingSendOk : IterEnv := ⟨true, some [1], true, true⟩

/-- Environment where the send fails after a mid-export change fired. -/
def envSendFailPending : IterEnv := ⟨true, some [1], true, false⟩

/-- Environment where the send fails and no mid-export change fired. -/
def envSendFailClean : IterEnv := ⟨true, some [1], false, false⟩

/-- A concrete connect-operator state holding a live connection. -/
def connectedStateEx : ConnectState := ⟨"vp", ["vp"], some 5⟩

end VisionProStreamer


namespace VisionProStreamer

/-- C1: the content-change handler (`recordChange` /
`depsgraph_handler_update_time`) updates `lastChangeTimestamp` to the
current time and leaves `pendingChangeDuringExport` unchanged when the
export-in-progress flag is false, and sets `pendingChangeDuringExport`
leaving `lastChangeTimestamp` unchanged when the flag is true. -/
theorem c1_record_change_handler (now : ℚ) (s : StreamerState) :
    (depsgraph_handler_update_time now s).lastModelChangeTime =
      (if s.isExportingUsdz then s.lastModelChangeTime else now) ∧
    (depsgraph_handler_update_time now s).pendingChangesDuringExport =
      (if s.isExportingUsdz then true else s.pendingChangesDuringExport) ∧
    (depsgraph_handler_update_time now s).isExportingUsdz = s.isExportingUsdz := by
  cases h : s.isExportingUsdz <;>
    simp [depsgraph_handler_update_time, h]

/-- Helper: big-endian 32-bit decoding inverts the encoding for lengths
below 2^32. -/
theorem fromBytesBE4_toBytesBE4 (L : ℕ) (h : L < 2 ^ 32) :
    fromBytesBE4 (L / 2 ^ 24 % 256) (L / 2 ^ 16 % 256) (L / 2 ^ 8 % 256)
      (L % 256) = L := by
  unfold fromBytesBE4
  omega

/-- C2: the bytes a streaming iteration writes for a payload `P` of
length `L` are exactly the 4-byte unsigned big-endian encoding of `L`
followed by the `L` bytes of `P`, and a reader that parses the length
header recovers `P` exactly (with the rest of the stream untouched). -/
theorem c2_frame_roundtrip (p rest : List Byte) (h : p.length < 2 ^ 32) :
    frameMessage p = toBytesBE4 p.length ++ p ∧
    readFrame (frameMessage p ++ rest) = some (p, rest) := by
  refine ⟨rfl, ?_⟩
  have hlen : p.length ≤ (p ++ rest).length := by
    simp
  simp only [frameMessage, toBytesBE4, List.cons_append, List.nil_append,
    readFrame, fromBytesBE4_toBytesBE4 p.length h, if_pos hlen]
  rw [List.take_left, List.drop_left]

/-- Witness for C2 at a concrete payload and remainder. -/
theorem c2_frame_roundtrip_witness :
    ([7, 8, 9] : List Byte).length < 2 ^ 32 ∧
    (frameMessage [7, 8, 9] = toBytesBE4 3 ++ [7, 8, 9] ∧
      readFrame (frameMessage [7, 8, 9] ++ [5]) = some ([7, 8, 9], [5])) :=
  ⟨by decide, c2_frame_roundtrip [7, 8, 9] [5] (by decide)⟩

/-- Helper: the `finally` clause never changes the action trace it is
given. -/
theorem finallyClause_actions (acts : List StreamAction) (st : StreamerState) :
    (finallyClause acts st).actions = acts := by
  unfold finallyClause; split <;> rfl

/-- Helper: the `finally` clause on a non-exception path always lets the
loop continue. -/
theorem finallyClause_control (acts : List StreamAction) (st : StreamerState) :
    (finallyClause acts st).control = .next := by
  unfold finallyClause; split <;> rfl

/-- Helper: whenever the export lock is free, the loop body performs the
export step, whatever its outcome and the send outcome. -/
theorem exportScene_mem_body (cfg : StreamConfig) (now : ℚ) (st : StreamerState)
    (eo : Option (List Byte)) (cde so : Bool) :
    StreamAction.exportScene ∈
      (streamIterationBody cfg now st ⟨true, eo, cde, so⟩).actions := by
  rcases eo with _ | payload <;> cases so <;> cases cde <;>
    simp [streamIterationBody, finallyClause, depsgraph_handler_update_time] <;>
    (split <;> simp)

/-- C3: in a streaming iteration with `streamOnlyWhenActive` enabled and
the export lock free, if `now - lastChangeTimestamp` has reached
`inactivityThreshold` the iteration performs no export and no send,
reports idle status, sleeps the fixed 0.5-second backoff, and re-loops
without an error; otherwise it proceeds into the export body and
exports. -/
theorem c3_activity_gate (cfg : StreamConfig) (now : ℚ) (st : StreamerState)
    (eo : Option (List Byte)) (cde so : Bool)
    (ha : cfg.streamOnlyWhenActive = true) :
    (cfg.inactivityThreshold ≤ now - st.lastModelChangeTime →
      streamIteration cfg now st ⟨true, eo, cde, so⟩ =
        ⟨[.statusIdle, .sleep (1 / 2)], st, .next⟩) ∧
    (now - st.lastModelChangeTime < cfg.inactivityThreshold →
      streamIteration cfg now st ⟨true, eo, cde, so⟩ =
        streamIterationBody cfg now st ⟨true, eo, cde, so⟩ ∧
      StreamAction.exportScene ∈
        (streamIteration cfg now st ⟨true, eo, cde, so⟩).actions) := by
  constructor
  · intro hidle
    simp [streamIteration, ha, not_lt.mpr hidle]
  · intro hact
    have heq : streamIteration cfg now st ⟨true, eo, cde, so⟩ =
        streamIterationBody cfg now st ⟨true, eo, cde, so⟩ := by
      simp [streamIteration, ha, hact]
    exact ⟨heq, heq ▸ exportScene_mem_body cfg now st eo cde so⟩

/-- Witness for C3: at threshold 2 and 5 seconds of idleness the
iteration is exactly the idle skip. -/
theorem c3_activity_gate_witness :
    cfgActive.streamOnlyWhenActive = true ∧
    cfgActive.inactivityThreshold ≤ (5 : ℚ) - initState.lastModelChangeTime ∧
    streamIteration cfgActive 5 initState ⟨true, some [1, 2, 3], false, true⟩ =
      ⟨[.statusIdle, .sleep (1 / 2)], initState, .next⟩ :=
  ⟨rfl, by norm_num [cfgActive, initState],
    (c3_activity_gate cfgActive 5 initState (some [1, 2, 3]) false true rfl).1
      (by norm_num [cfgActive, initState])⟩

/-- C4 counterexample: with `streamOnlyWhenActive` enabled and
`recordChange` never called, start-streaming resets the activity
timestamp to the current time, so the very first loop iteration is active
and writes framed bytes to the socket — contradicting "the export/send
step is skipped from the first iteration onward and no bytes are ever
written". -/
theorem c4_first_iteration_sends :
    StreamAction.send (frameMessage [1, 2, 3]) ∈
      (streamIteration cfgActive 10
        (startStreamingResetLast cfgActive 10 initState) envOk).actions := by
  norm_num [streamIteration, streamIterationBody, finallyClause,
    depsgraph_handler_update_time, startStreamingResetLast, cfgActive, initState,
    envOk]

/-- C4 amended: with `streamOnlyWhenActive` enabled and `recordChange`
never called, every iteration occurring at least `inactivityThreshold`
after the last recorded activity timestamp is skipped: the run only
reports idle status and sleeps 0.5 s each gated cycle — no export, no
bytes written, state untouched. -/
theorem c4_gated_run_stays_idle (cfg : StreamConfig) (st : StreamerState)
    (steps : List (ℚ × IterEnv)) (ha : cfg.streamOnlyWhenActive = true) :
    (∀ s ∈ steps, st.lastModelChangeTime + cfg.inactivityThreshold ≤ s.1) →
    (runStream cfg steps st).1 =
      (steps.map fun _ => [StreamAction.statusIdle, .sleep (1 / 2)]).flatten ∧
    (runStream cfg steps st).2 = st := by
  induction steps with
  | nil => intro _; simp [runStream]
  | cons s rest ih =>
    intro hidle
    obtain ⟨t, env⟩ := s
    have ht : st.lastModelChangeTime + cfg.inactivityThreshold ≤ t :=
      hidle (t, env) (List.mem_cons_self _ _)
    have hskip : ¬(t - st.lastModelChangeTime < cfg.inactivityThreshold) := by
      intro hlt; linarith
    have hiter : streamIteration cfg t st env =
        ⟨[.statusIdle, .sleep (1 / 2)], st, .next⟩ := by
      simp [streamIteration, ha, hskip]
    have hrest := ih (fun s hs => hidle s (List.mem_cons_of_mem _ hs))
    simp [runStream, hiter, hrest.1, hrest.2]

/-- Witness for the amended C4 at one concrete gated iteration. -/
theorem c4_gated_run_stays_idle_witness :
    cfgActive.streamOnlyWhenActive = true ∧
    (∀ s ∈ [((5 : ℚ), envOk)],
      initState.lastModelChangeTime + cfgActive.inactivityThreshold ≤ s.1) ∧
    ((runStream cfgActive [((5 : ℚ), envOk)] initState).1 =
      ([((5 : ℚ), envOk)].map fun _ =>
        [StreamAction.statusIdle, .sleep (1 / 2)]).flatten ∧
     (runStream cfgActive [((5 : ℚ), envOk)] initState).2 = initState) :=
  ⟨rfl, by norm_num [initState, cfgActive],
    c4_gated_run_stays_idle cfgActive initState [((5 : ℚ), envOk)] rfl
      (by norm_num [initState, cfgActive])⟩

/-- C5 (code bug): in a cycle whose export set the pending-change flag
and whose send succeeded, the iteration still performs the `1/targetFPS`
pacing sleep — the sleep at source line 533 runs before the `finally`
clause checks the flag, so the "skip the pacing sleep" announced by the
code's own comment at line 545 never happens.  The flag is cleared and
the loop continues, but not immediately. -/
theorem c5_pacing_sleep_not_skipped :
    streamIteration cfgRef 0 initState envPendingSendOk =
      ⟨[.createTempDir 0, .exportScene, .send (frameMessage [1]), .statusSent,
        .sleep (1 / 30)],
       ⟨0, false, false, some 0, [0], 1⟩, .next⟩ ∧
    StreamAction.sleep (1 / 30) ∈
      (streamIteration cfgRef 0 initState envPendingSendOk).actions := by
  norm_num [streamIteration, streamIterationBody, finallyClause,
    depsgraph_handler_update_time, cfgRef, initState, envPendingSendOk]

/-- C6: a cycle whose main-thread export fails, times out, or produces no
data sends nothing, reports the failure via status, sleeps `1/targetFPS`,
and the loop continues — an export failure never terminates the
session. -/
theorem c6_export_failure_recovered (cfg : StreamConfig) (now : ℚ)
    (st : StreamerState) (cde so : Bool)
    (hgate : cfg.streamOnlyWhenActive = false ∨
      now - st.lastModelChangeTime < cfg.inactivityThreshold) :
    (streamIteration cfg now st ⟨true, none, cde, so⟩).actions =
      [.createTempDir st.nextDirId, .exportScene, .statusExportFailed,
       .sleep (1 / (cfg.fps : ℚ))] ∧
    (streamIteration cfg now st ⟨true, none, cde, so⟩).control = .next ∧
    (∀ b, StreamAction.send b ∉
      (streamIteration cfg now st ⟨true, none, cde, so⟩).actions) ∧
    StreamAction.requestDisconnect ∉
      (streamIteration cfg now st ⟨true, none, cde, so⟩).actions := by
  have hbody : streamIteration cfg now st ⟨true, none, cde, so⟩ =
      streamIterationBody cfg now st ⟨true, none, cde, so⟩ := by
    rcases hgate with h | h
    · simp [streamIteration, h]
    · cases hsa : cfg.streamOnlyWhenActive <;> simp [streamIteration, hsa, h]
  rw [hbody]
  have hacts : (streamIterationBody cfg now st ⟨true, none, cde, so⟩).actions =
      [.createTempDir st.nextDirId, .exportScene, .statusExportFailed,
       .sleep (1 / (cfg.fps : ℚ))] := by
    cases cde <;>
      simp [streamIterationBody, finallyClause_actions,
        depsgraph_handler_update_time]
  have hctl : (streamIterationBody cfg now st ⟨true, none, cde, so⟩).control =
      .next := by
    cases cde <;>
      simp [streamIterationBody, finallyClause_control,
        depsgraph_handler_update_time]
  refine ⟨hacts, hctl, ?_, ?_⟩
  · intro b
    rw [hacts]
    simp
  · rw [hacts]
    simp

/-- Witness for C6 at a concrete failing export cycle. -/
theorem c6_export_failure_recovered_witness :
    (cfgRef.streamOnlyWhenActive = false ∨
      (0 : ℚ) - initState.lastModelChangeTime < cfgRef.inactivityThreshold) ∧
    ((streamIteration cfgRef 0 initState ⟨true, none, false, true⟩).actions =
      [.createTempDir initState.nextDirId, .exportScene, .statusExportFailed,
       .sleep (1 / (cfgRef.fps : ℚ))] ∧
     (streamIteration cfgRef 0 initState ⟨true, none, false, true⟩).control = .next ∧
     (∀ b, StreamAction.send b ∉
       (streamIteration cfgRef 0 initState ⟨true, none, false, true⟩).actions) ∧
     StreamAction.requestDisconnect ∉
       (streamIteration cfgRef 0 initState ⟨true, none, false, true⟩).actions) :=
  ⟨Or.inl rfl, c6_export_failure_recovered cfgRef 0 initState false true
    (Or.inl rfl)⟩

/-- C7 (code bug): when the send raises and no mid-export change is
pending, the loop exits fatally with exactly one disconnect request, as
claimed; but when a depsgraph change fired during that cycle's export
(pending flag set), the `continue` inside the `finally` clause discards
the in-flight socket exception — the loop keeps iterating (a later cycle
even sends again) and no disconnect is requested, contradicting the claim
at that input. -/
theorem c7_transport_error_swallowed_when_pending :
    ((streamIteration cfgRef 0 initState envSendFailClean).actions =
      [.createTempDir 0, .exportScene, .sendError, .requestDisconnect] ∧
     (streamIteration cfgRef 0 initState envSendFailClean).control = .fatal) ∧
    ((streamIteration cfgRef 0 initState envSendFailPending).control = .next ∧
      StreamAction.requestDisconnect ∉
        (streamIteration cfgRef 0 initState envSendFailPending).actions ∧
      StreamAction.statusSent ∈
        (runStream cfgRef [(0, envSendFailPending), (0, envOk)] initState).1) := by
  norm_num [streamIteration, streamIterationBody, finallyClause,
    depsgraph_handler_update_time, runStream, cfgRef, initState,
    envSendFailClean, envSendFailPending, envOk]
  decide

/-- C9 (code bug): a run of two successful cycles creates two scratch
directories, but the cleanup on loop exit removes only the directory
still referenced by the `temp_dir` variable — the first cycle's directory
is created and never removed. -/
theorem c9_temp_dir_leak :
    (runStream cfgRef [(0, envOk), (0, envOk)] initState).2.createdDirs
        = [0, 1] ∧
    loopExitCleanup (runStream cfgRef [(0, envOk), (0, envOk)] initState).2
        = [1] ∧
    0 ∈ (runStream cfgRef [(0, envOk), (0, envOk)] initState).2.createdDirs ∧
    0 ∉ loopExitCleanup (runStream cfgRef [(0, envOk), (0, envOk)] initState).2 := by
  norm_num [runStream, streamIteration, streamIterationBody, finallyClause,
    depsgraph_handler_update_time, loopExitCleanup, cfgRef, initState, envOk]

/-- C10: with `streamOnlyWhenActive` enabled, start-streaming first sets
the activity timestamp to the current time before spawning the loop, so
any iteration running within `inactivityThreshold` of the start exports
and sends even though no content change was ever recorded. -/
theorem c10_start_resets_activity (cfg : StreamConfig) (t0 t : ℚ)
    (st : StreamerState) (p : List Byte) (ha : cfg.streamOnlyWhenActive = true)
    (hfresh : t - t0 < cfg.inactivityThreshold) :
    (startStreamingResetLast cfg t0 st).lastModelChangeTime = t0 ∧
    (streamIteration cfg t (startStreamingResetLast cfg t0 st)
        ⟨true, some p, false, true⟩).actions =
      [.createTempDir st.nextDirId, .exportScene, .send (frameMessage p),
       .statusSent, .sleep (1 / (cfg.fps : ℚ))] := by
  have hreset : startStreamingResetLast cfg t0 st =
      { st with lastModelChangeTime := t0 } := by
    simp [startStreamingResetLast, ha]
  refine ⟨by rw [hreset], ?_⟩
  rw [hreset]
  simp [streamIteration, ha, hfresh, streamIterationBody, finallyClause_actions]

/-- Witness for C10 at a concrete start and first iteration. -/
theorem c10_start_resets_activity_witness :
    cfgActive.streamOnlyWhenActive = true ∧
    (11 : ℚ) - 10 < cfgActive.inactivityThreshold ∧
    ((startStreamingResetLast cfgActive 10 initState).lastModelChangeTime = 10 ∧
     (streamIteration cfgActive 11 (startStreamingResetLast cfgActive 10 initState)
        ⟨true, some [1, 2, 3], false, true⟩).actions =
      [.createTempDir initState.nextDirId, .exportScene,
       .send (frameMessage [1, 2, 3]), .statusSent,
       .sleep (1 / (cfgActive.fps : ℚ))]) :=
  ⟨rfl, by norm_num [cfgActive],
    c10_start_resets_activity cfgActive 10 11 initState [1, 2, 3] rfl
      (by norm_num [cfgActive])⟩

/-- C8: invoking the connect operator while a live Connection exists
never succeeds: the poll guard rejects the invocation (the spec's
`AlreadyConnectedError`) and the stored connection is untouched, so at
most one Connection exists at any time. -/
theorem c8_connect_blocked_when_connected (st : ConnectState)
    (socketOk : Bool) (newSock c : ℕ) (h : st.connection = some c) :
    invokeConnect st socketOk newSock = (.alreadyConnectedError, st) ∧
    (invokeConnect st socketOk newSock).2.connection = some c := by
  have heq : invokeConnect st socketOk newSock = (.alreadyConnectedError, st) := by
    simp [invokeConnect, h]
  exact ⟨heq, by rw [heq]; exact h⟩

/-- Witness for C8 at a concrete connected state. -/
theorem c8_connect_blocked_when_connected_witness :
    connectedStateEx.connection = some 5 ∧
    (invokeConnect connectedStateEx true 9 =
        (.alreadyConnectedError, connectedStateEx) ∧
      (invokeConnect connectedStateEx true 9).2.connection = some 5) :=
  ⟨rfl, c8_connect_blocked_when_connected connectedStateEx true 9 5 rfl⟩

end VisionProStreamer
